import Mathlib

/-!
Verification of the Instagram scraper core pipeline (scraper.py, app.py,
models.py) against its natural-language specification.

The Python source is shallowly embedded: the `InstagramPost` pydantic model
becomes a Lean structure of `Option`-valued fields, Python truthiness is made
explicit, the Crawl4AI fetch result and the OpenAI parse outcome become
inductive oracles, and the retry loop / classification / normalization logic
is translated function-by-function from `scraper.py`.
-/

deriving instance DecidableEq for Except

namespace InstaScraper

/-- The `InstagramPost` pydantic model from `models.py`: every field is
optional and defaults to `None`. -/
structure InstagramPost where
  caption : Option String := none
  type : Option String := none
  url : Option String := none
  videoUrl : Option String := none
  imageUrl : Option String := none
  displayUrl : Option String := none
  shortCode : Option String := none
  timestamp : Option String := none
  likesCount : Option Int := none
  commentsCount : Option Int := none
  videoViewCount : Option Int := none
  videoPlayCount : Option Int := none
  ownerUsername : Option String := none
  ownerFullName : Option String := none
  locationName : Option String := none
  hashtags : Option (List String) := none
  mentions : Option (List String) := none
  alt : Option String := none
deriving DecidableEq

/-- Python truthiness of an `Optional[str]` value: `None` and `""` are falsy. -/
def truthyStr : Option String → Bool
  | none => false
  | some s => !(s == "")

/-- Python truthiness of an `Optional[int]` value: `None` and `0` are falsy. -/
def truthyInt : Option Int → Bool
  | none => false
  | some n => !(n == 0)

/-- Python's `needle in haystack` substring test. -/
def pyIn (needle hay : String) : Bool :=
  decide (needle.data <:+: hay.data)

/-- Python's `str.lower()`, character-wise lowering. -/
def pyLower (s : String) : String :=
  String.mk (s.data.map Char.toLower)

/-- Python's `str.strip()`: drop whitespace from both ends. -/
def pyStrip (s : String) : String :=
  String.mk (((s.data.dropWhile Char.isWhitespace).reverse.dropWhile
    Char.isWhitespace).reverse)

/-! ### The normalizer `InstagramScraper._prioritize_video_content` -/

/-- The `video_extensions` list of `_prioritize_video_content`. -/
def videoExtensions : List String := [".mp4", ".mov", ".webm", ".avi"]

/-- The `video_indicators` list of `_prioritize_video_content`. -/
def videoIndicators : List String := ["video/", "/video", "videos.", "videoplayback"]

/-- The `is_video_url` test of `_prioritize_video_content`: some extension or
indicator is a substring of the lower-cased video URL. -/
def isVideoUrl (v : String) : Bool :=
  videoExtensions.any (fun e => pyIn e (pyLower v)) ||
    videoIndicators.any (fun i => pyIn i (pyLower v))

/-- The guard `post.videoUrl and post.videoUrl.strip()` combined with the
`is_video_url` check of `_prioritize_video_content`. -/
def videoCond (post : InstagramPost) : Bool :=
  match post.videoUrl with
  | none => false
  | some v => (!(v == "") && !(pyStrip v == "")) && isVideoUrl v

/-- First block of `_prioritize_video_content`: force `type = "video"` for
video-looking URLs, demoting a lone `imageUrl` to `displayUrl`. -/
def pvcVideoUrlStep (post : InstagramPost) : InstagramPost :=
  if videoCond post then
    if truthyStr post.imageUrl && !truthyStr post.displayUrl then
      { post with
          type := some "video",
          displayUrl := post.imageUrl,
          imageUrl := none }
    else { post with type := some "video" }
  else post

/-- Second block of `_prioritize_video_content`: view counts with no type
imply a video. -/
def pvcViewCountStep (post : InstagramPost) : InstagramPost :=
  if (truthyInt post.videoViewCount || truthyInt post.videoPlayCount) &&
      !truthyStr post.type then
    { post with type := some "video" }
  else post

/-- `InstagramScraper._prioritize_video_content` from `scraper.py`. -/
def prioritizeVideoContent (post : InstagramPost) : InstagramPost :=
  pvcViewCountStep (pvcVideoUrlStep post)

/-! ### The fetcher `InstagramScraper._scrape_with_crawl4ai` -/

/-- One media item of a Crawl4AI result (`result.media`): an optional `url`
attribute and a `type` attribute (`getattr(media_item, 'type', 'unknown')`). -/
structure MediaItem where
  url : Option String
  type : String
deriving DecidableEq

/-- The Crawl4AI `result` object as consumed by `_scrape_with_crawl4ai`. -/
structure CrawlResult where
  success : Bool
  markdown : Option String
  media : List MediaItem
  errorMessage : Option String
deriving DecidableEq

/-- Python's `a or b` for an optional string `a` and a default `b`:
`result.error_message or "Unknown error"`. -/
def pyOrElse : Option String → String → String
  | none, d => d
  | some s, d => if s == "" then d else s

/-- The four fetch-failure buckets of the error categorization in
`_scrape_with_crawl4ai` (lines 140-147 of `scraper.py`). -/
inductive FetchErrorKind where
  | notFound
  | accessDenied
  | rateLimited
  | generic
deriving DecidableEq

/-- The `if/elif` error categorization chain of `_scrape_with_crawl4ai`,
translated condition for condition: `"404" in error_msg or "not found" in
error_msg.lower()`, then `"403" in error_msg or "forbidden" in
error_msg.lower()`, then `"rate limit" in error_msg.lower() or "429" in
error_msg`, else the generic fall-through. -/
def classifyFetchError (msg : String) : FetchErrorKind :=
  if pyIn "404" msg || pyIn "not found" (pyLower msg) then .notFound
  else if pyIn "403" msg || pyIn "forbidden" (pyLower msg) then .accessDenied
  else if pyIn "rate limit" (pyLower msg) || pyIn "429" msg then .rateLimited
  else .generic

/-- Modelled from the spec: classification of a fetch-failure message as
§4.2 words it — "substring/keyword matching on the lower-cased message,
order-sensitive (check NotFound, then AccessDenied, then RateLimited, then
fall through to Generic)". Every keyword, the numeric ones included, is
tested against the lower-cased message. Used only to compare with
`classifyFetchError`, which is translated from the code. -/
def specClassifyFetch (msg : String) : FetchErrorKind :=
  if pyIn "404" (pyLower msg) || pyIn "not found" (pyLower msg) then .notFound
  else if pyIn "403" (pyLower msg) || pyIn "forbidden" (pyLower msg) then .accessDenied
  else if pyIn "rate limit" (pyLower msg) || pyIn "429" (pyLower msg) then .rateLimited
  else .generic

/-- The exception message raised by `_scrape_with_crawl4ai` for each
fetch-failure bucket. -/
def fetchErrorText (msg : String) : String :=
  match classifyFetchError msg with
  | .notFound => "Instagram post not found or deleted"
  | .accessDenied => "Instagram post is private or access denied"
  | .rateLimited => "Instagram is rate limiting requests"
  | .generic => "Failed to access Instagram post: " ++ msg

/-- The `--- EXTRACTED MEDIA URLS ---` block appended to the markdown when
`result.media` is non-empty. -/
def mediaInfoBlock (media : List MediaItem) : String :=
  "\n\n--- EXTRACTED MEDIA URLS ---\n" ++
    String.join (media.map fun m =>
      match m.url with
      | some u => if u == "" then "" else "Media URL (" ++ m.type ++ "): " ++ u ++ "\n"
      | none => "")

/-- `InstagramScraper._scrape_with_crawl4ai`, as a function of the crawl
result: a successful crawl with missing/empty/short (< 100 characters after
stripping) markdown yields `none` (a soft failure); a successful crawl with
long enough markdown yields the markdown plus the media block; a failed crawl
raises the classified exception message. -/
def scrapeWithCrawl4ai (r : CrawlResult) : Except String (Option String) :=
  if r.success then
    match r.markdown with
    | none => .ok none
    | some md =>
      if md == "" || (pyStrip md).length < 100 then .ok none
      else if r.media.isEmpty then .ok (some md)
      else .ok (some (md ++ mediaInfoBlock r.media))
  else .error (fetchErrorText (pyOrElse r.errorMessage "Unknown error"))

/-! ### The retry controller `InstagramScraper._scrape_with_crawl4ai_retry` -/

/-- The `for attempt in range(max_retries)` loop of
`_scrape_with_crawl4ai_retry`, over an attempt-indexed fetcher. The second
argument is the current attempt index, the third the number of loop
iterations left. Besides the loop's own result, the number of fetcher
invocations made is returned. A truthy fetched content is returned
immediately; falsy content is a soft failure and the loop moves on (after a
sleep, irrelevant here); an exception is swallowed on every non-final
attempt and re-raised on the final one; a fully exhausted loop falls
through to `return None`. -/
def retryLoop (fetch : Nat → Except String (Option String)) :
    Nat → Nat → Except String (Option String) × Nat
  | _, 0 => (.ok none, 0)
  | attempt, fuel + 1 =>
    match fetch attempt with
    | .ok c =>
      if truthyStr c then (.ok c, 1)
      else
        let r := retryLoop fetch (attempt + 1) fuel
        (r.1, r.2 + 1)
    | .error e =>
      if fuel == 0 then (.error e, 1)
      else
        let r := retryLoop fetch (attempt + 1) fuel
        (r.1, r.2 + 1)

/-- `InstagramScraper._scrape_with_crawl4ai_retry`: run the retry loop from
attempt 0 with `Config.INSTAGRAM_MAX_RETRIES` total attempts. -/
def scrapeWithRetry (fetch : Nat → Except String (Option String))
    (maxRetries : Nat) : Except String (Option String) × Nat :=
  retryLoop fetch 0 maxRetries

/-! ### The extractor adapter `InstagramScraper._parse_with_openai` -/

/-- A character of the regex class `[A-Za-z0-9_-]`. -/
def isIdChar (c : Char) : Bool :=
  c.isAlpha || c.isDigit || c == '_' || c == '-'

/-- Does the list start with `/p/` followed by at least one `[A-Za-z0-9_-]`
character, i.e. does the regex `/p/([A-Za-z0-9_-]+)` match here? -/
def shortCodeHere (l : List Char) : Bool :=
  match l with
  | a :: b :: c :: d :: _ => a == '/' && b == 'p' && c == '/' && isIdChar d
  | _ => false

/-- `re.search(r'/p/([A-Za-z0-9_-]+)', url)`: scan left to right for the
first position where the pattern matches and return the (greedy) capture
group, the maximal run of identifier characters after the `/p/`. -/
def reSearchShortCode : List Char → Option (List Char)
  | [] => none
  | c :: rest =>
    if shortCodeHere (c :: rest) then some ((rest.drop 2).takeWhile isIdChar)
    else reSearchShortCode rest

/-- First backfill block of `_parse_with_openai` (lines 244-246 of
`scraper.py`): add the original URL when `function_args.get('url')` is
falsy. -/
def backfillUrl (args : InstagramPost) (url : String) : InstagramPost :=
  if truthyStr args.url then args else { args with url := some url }

/-- Second backfill block of `_parse_with_openai` (lines 248-253 of
`scraper.py`): extract the short code from the URL when
`function_args.get('shortCode')` is falsy, `'/p/' in url` holds and the
regex search succeeds. -/
def backfillShortCode (args : InstagramPost) (url : String) : InstagramPost :=
  if truthyStr args.shortCode then args
  else if pyIn "/p/" url then
    match reSearchShortCode url.data with
    | some cs => { args with shortCode := some (String.mk cs) }
    | none => args
  else args

/-- Both backfill blocks of `_parse_with_openai`, in the code's order. -/
def backfill (args : InstagramPost) (url : String) : InstagramPost :=
  backfillShortCode (backfillUrl args url) url

/-- The five extraction-failure outcomes of `_parse_with_openai`'s `except`
blocks, keyed on the lower-cased `str(e)`. -/
inductive ParseErrorKind where
  | authError
  | quotaExceeded
  | rateLimited
  | generic
deriving DecidableEq

/-- The keyword classification of the generic `except Exception` block of
`_parse_with_openai`: `"api key"`, then `"quota" or "billing"`, then
`"rate limit"`, else generic — all tested against `str(e).lower()`. -/
def classifyParseError (msg : String) : ParseErrorKind :=
  if pyIn "api key" (pyLower msg) then .authError
  else if pyIn "quota" (pyLower msg) || pyIn "billing" (pyLower msg) then .quotaExceeded
  else if pyIn "rate limit" (pyLower msg) then .rateLimited
  else .generic

/-- The exception message re-raised by `_parse_with_openai` for each
extraction-failure bucket. -/
def parseErrorText (msg : String) : String :=
  match classifyParseError msg with
  | .authError => "OpenAI API key is invalid or missing"
  | .quotaExceeded => "OpenAI API quota exceeded or billing issue"
  | .rateLimited => "OpenAI API rate limit exceeded"
  | .generic => "OpenAI processing failed: " ++ msg

/-- Outcome of the OpenAI chat-completion call inside `_parse_with_openai`:
either a function call whose JSON arguments decode to a record, a response
with no function call, a `json.JSONDecodeError` while decoding the
arguments, or some other raised exception. -/
inductive OpenAIOutcome where
  | functionCall (args : InstagramPost)
  | noFunctionCall
  | jsonDecodeError (msg : String)
  | raised (msg : String)

/-- `InstagramScraper._parse_with_openai` as a function of the OpenAI
outcome. On a function call the backfill block and
`_prioritize_video_content` run and the post is returned; a missing function
call raises a message that the generic `except Exception` block re-classifies;
a `json.JSONDecodeError` raises `"Failed to parse OpenAI response"`; any
other exception is classified by keyword. -/
def parseWithOpenai (outcome : OpenAIOutcome) (url : String) :
    Except String InstagramPost :=
  match outcome with
  | .functionCall args => .ok (prioritizeVideoContent (backfill args url))
  | .noFunctionCall => .error (parseErrorText "OpenAI failed to parse Instagram content")
  | .jsonDecodeError _ => .error "Failed to parse OpenAI response"
  | .raised msg => .error (parseErrorText msg)

/-! ### The orchestrator `InstagramScraper.scrape_instagram_post` -/

/-- `InstagramScraper.scrape_instagram_post`: fetch with retry, raise on
falsy content, otherwise parse once. Besides the result, the number of
fetcher invocations and the number of extractor invocations are returned. -/
def scrapeInstagramPost (fetch : Nat → Except String (Option String))
    (outcome : OpenAIOutcome) (url : String) (maxRetries : Nat) :
    Except String InstagramPost × Nat × Nat :=
  match scrapeWithRetry fetch maxRetries with
  | (.error e, n) => (.error e, n, 0)
  | (.ok none, n) => (.error "Failed to retrieve content from Instagram", n, 0)
  | (.ok (some c), n) =>
    if c == "" then (.error "Failed to retrieve content from Instagram", n, 0)
    else
      match parseWithOpenai outcome url with
      | .error e => (.error e, n, 1)
      | .ok post => (.ok post, n, 1)

/-! ### URL validation `_is_valid_instagram_url` from `app.py` -/

/-- Strip a literal pattern from the front of a character list, or fail. -/
def dropLit (pat l : List Char) : Option (List Char) :=
  if l.take pat.length == pat then some (l.drop pat.length) else none

/-- Match one of the anchored patterns
`^https?://(?:www\.)?instagram\.com/<seg>/[A-Za-z0-9_-]+/?$` of
`_is_valid_instagram_url`, where `seg` is `p`, `reel` or `tv`. -/
def matchInstagramPattern (seg : List Char) (l : List Char) : Bool :=
  match (dropLit "https://".data l).orElse (fun _ => dropLit "http://".data l) with
  | none => false
  | some r0 =>
    let r1 := ((dropLit "www.".data r0).getD r0)
    match dropLit ("instagram.com/".data ++ seg ++ ['/']) r1 with
    | none => false
    | some rest =>
      let idPart := rest.takeWhile isIdChar
      let tail := rest.drop idPart.length
      !idPart.isEmpty && (tail.isEmpty || tail == ['/'])

/-- `_is_valid_instagram_url` from `app.py`: the URL matches the post, reel
or IGTV pattern. -/
def isValidInstagramUrl (url : String) : Bool :=
  matchInstagramPattern "p".data url.data ||
    matchInstagramPattern "reel".data url.data ||
    matchInstagramPattern "tv".data url.data

/-! ### Concrete fetcher stubs for the retry-controller scenarios -/

/-- A crawl that succeeds but yields empty markdown: a soft failure. -/
def softCrawl : CrawlResult :=
  { success := true, markdown := some "", media := [], errorMessage := none }

/-- A 100-character markdown body, long enough to pass the length gate. -/
def validMarkdown : String := String.mk (List.replicate 100 'a')

/-- A crawl that succeeds with markdown long enough to pass the gate. -/
def validCrawl : CrawlResult :=
  { success := true, markdown := some validMarkdown, media := [],
    errorMessage := none }

/-- A fetcher stub yielding empty content twice, then valid content. -/
def stubSeq : Nat → CrawlResult := fun i => if i < 2 then softCrawl else validCrawl

/-- A crawl that always fails with a rate-limiting error message. -/
def raisingCrawl : CrawlResult :=
  { success := false, markdown := none, media := [],
    errorMessage := some "429 Too Many Requests" }

/-! ### Lemmas about the normalizer -/

lemma videoCond_set_type (p : InstagramPost) (t : Option String) :
    videoCond { p with type := t } = videoCond p := rfl

lemma videoCond_set_all (p : InstagramPost) (t d : Option String) :
    videoCond
      { p with type := t, displayUrl := d, imageUrl := none } =
      videoCond p := rfl

lemma pvcVideoUrlStep_neg {p : InstagramPost} (h : videoCond p = false) :
    pvcVideoUrlStep p = p := by
  unfold pvcVideoUrlStep
  simp [h]

lemma pvcVideoUrlStep_pos_move {p : InstagramPost} (h : videoCond p = true)
    (h2 : (truthyStr p.imageUrl && !truthyStr p.displayUrl) = true) :
    pvcVideoUrlStep p =
      { p with
          type := some "video",
          displayUrl := p.imageUrl,
          imageUrl := none } := by
  unfold pvcVideoUrlStep
  simp [h, h2]

lemma pvcVideoUrlStep_pos_stay {p : InstagramPost} (h : videoCond p = true)
    (h2 : (truthyStr p.imageUrl && !truthyStr p.displayUrl) = false) :
    pvcVideoUrlStep p = { p with type := some "video" } := by
  unfold pvcVideoUrlStep
  simp [h, h2]

lemma pvcViewCountStep_eq (p : InstagramPost) :
    pvcViewCountStep p =
      if (truthyInt p.videoViewCount || truthyInt p.videoPlayCount) &&
          !truthyStr p.type then { p with type := some "video" }
      else p := rfl

lemma pvcViewCountStep_of_truthy {p : InstagramPost}
    (h : truthyStr p.type = true) : pvcViewCountStep p = p := by
  rw [pvcViewCountStep_eq, h]
  simp

lemma pvcVideoUrlStep_type_pos {p : InstagramPost} (h : videoCond p = true) :
    (pvcVideoUrlStep p).type = some "video" := by
  rcases h2 : (truthyStr p.imageUrl && !truthyStr p.displayUrl) with _ | _
  · rw [pvcVideoUrlStep_pos_stay h h2]
  · rw [pvcVideoUrlStep_pos_move h h2]

lemma pvcVideoUrlStep_idem (p : InstagramPost) :
    pvcVideoUrlStep (pvcVideoUrlStep p) = pvcVideoUrlStep p := by
  by_cases h : videoCond p = true
  · rcases h2 : (truthyStr p.imageUrl && !truthyStr p.displayUrl) with _ | _
    · rw [pvcVideoUrlStep_pos_stay h h2]
      have hq : videoCond { p with type := (some "video" : Option String) } = true := by
        rw [videoCond_set_type]; exact h
      have hq2 : (truthyStr (InstagramPost.imageUrl { p with type := some "video" }) &&
          !truthyStr (InstagramPost.displayUrl { p with type := some "video" })) = false := h2
      rw [pvcVideoUrlStep_pos_stay hq hq2]
    · rw [pvcVideoUrlStep_pos_move h h2]
      have hq : videoCond
          { p with
              type := (some "video" : Option String),
              displayUrl := p.imageUrl,
              imageUrl := none } = true := by
        rw [videoCond_set_all]; exact h
      rw [pvcVideoUrlStep_pos_stay hq rfl]
  · have h' : videoCond p = false := by simpa using h
    rw [pvcVideoUrlStep_neg h', pvcVideoUrlStep_neg h']

/-- The normalizer can only touch the `type`, `imageUrl` and `displayUrl`
fields: its output is the input record with at most those three replaced. -/
lemma prioritize_shape (p : InstagramPost) :
    ∃ t i d, prioritizeVideoContent p =
      { p with type := t, imageUrl := i, displayUrl := d } := by
  unfold prioritizeVideoContent pvcViewCountStep pvcVideoUrlStep
  repeat' split
  all_goals exact ⟨_, _, _, rfl⟩

/-- Claim **C4 (claim theorem).** `_prioritize_video_content` is a total Lean
function (no failure mode) and is idempotent: applying it twice equals
applying it once, for every record. -/
theorem claim_C4_normalize_idempotent (p : InstagramPost) :
    prioritizeVideoContent (prioritizeVideoContent p) =
      prioritizeVideoContent p := by
  by_cases h : videoCond p = true
  · have htype := pvcVideoUrlStep_type_pos h
    have ht : truthyStr (pvcVideoUrlStep p).type = true := by
      rw [htype]; decide
    unfold prioritizeVideoContent
    rw [pvcViewCountStep_of_truthy ht, pvcVideoUrlStep_idem p,
      pvcViewCountStep_of_truthy ht]
  · have h' : videoCond p = false := by simpa using h
    unfold prioritizeVideoContent
    rw [pvcVideoUrlStep_neg h']
    rcases hc : ((truthyInt p.videoViewCount || truthyInt p.videoPlayCount) &&
        !truthyStr p.type) with _ | _
    · have e : pvcViewCountStep p = p := by
        rw [pvcViewCountStep_eq, hc]; simp
      rw [e, pvcVideoUrlStep_neg h', e]
    · have e : pvcViewCountStep p = { p with type := some "video" } := by
        rw [pvcViewCountStep_eq, hc]; simp
      rw [e]
      have h'' : videoCond { p with type := (some "video" : Option String) } = false := by
        rw [videoCond_set_type]; exact h'
      rw [pvcVideoUrlStep_neg h'']
      have hts : truthyStr (some "video" : Option String) = true := by decide
      exact pvcViewCountStep_of_truthy hts

lemma videoCond_of_parts {p : InstagramPost} {v : String}
    (hv : p.videoUrl = some v) (hs : (pyStrip v == "") = false)
    (hiv : isVideoUrl v = true) : videoCond p = true := by
  have hv0 : (v == "") = false := by
    rcases he : (v == "") with _ | _
    · rfl
    · have hve : v = "" := by simpa using he
      subst hve
      have hss : (pyStrip "" == "") = true := by decide
      rw [hss] at hs
      cases hs
  unfold videoCond
  rw [hv]
  simp only [hv0, hs, hiv]
  rfl

lemma prioritize_of_videoCond {p : InstagramPost} (h : videoCond p = true) :
    prioritizeVideoContent p = pvcVideoUrlStep p := by
  have ht : truthyStr (pvcVideoUrlStep p).type = true := by
    rw [pvcVideoUrlStep_type_pos h]; decide
  unfold prioritizeVideoContent
  rw [pvcViewCountStep_of_truthy ht]

/-- Claim **C3 (claim theorem).** For every record whose `videoUrl` is non-blank
after stripping and passes the video-indicator test, the normalizer forces
`type = "video"`; and if additionally `imageUrl` holds a non-empty string
("is set", in the Python-truthiness sense the code tests) while `displayUrl`
is null, the normalizer moves `imageUrl` into `displayUrl` and clears
`imageUrl`. The third conjunct is the spec's concrete instance
`videoUrl = "x.mp4"`, `imageUrl = "thumb.jpg"`, `displayUrl = null`. -/
theorem claim_C3_video_priority :
    (∀ (p : InstagramPost) (v : String), p.videoUrl = some v →
      (pyStrip v == "") = false → isVideoUrl v = true →
      (prioritizeVideoContent p).type = some "video") ∧
    (∀ (p : InstagramPost) (v i : String), p.videoUrl = some v →
      (pyStrip v == "") = false → isVideoUrl v = true →
      p.imageUrl = some i → (i == "") = false → p.displayUrl = none →
      (prioritizeVideoContent p).displayUrl = some i ∧
        (prioritizeVideoContent p).imageUrl = none) ∧
    ((prioritizeVideoContent
        { videoUrl := some "x.mp4", imageUrl := some "thumb.jpg" }).displayUrl =
        some "thumb.jpg" ∧
      (prioritizeVideoContent
        { videoUrl := some "x.mp4", imageUrl := some "thumb.jpg" }).imageUrl =
        none) := by
  refine ⟨?_, ?_, by decide⟩
  · intro p v hv hs hiv
    have hc := videoCond_of_parts hv hs hiv
    rw [prioritize_of_videoCond hc]
    exact pvcVideoUrlStep_type_pos hc
  · intro p v i hv hs hiv hi hi0 hd
    have hc := videoCond_of_parts hv hs hiv
    have hmove : (truthyStr p.imageUrl && !truthyStr p.displayUrl) = true := by
      rw [hi, hd]
      simp [truthyStr, hi0]
    rw [prioritize_of_videoCond hc, pvcVideoUrlStep_pos_move hc hmove]
    exact ⟨hi, rfl⟩

/-- Witness for the hypotheses of `claim_C3_video_priority`: instantiate both
universal parts at the record `videoUrl = "v.mp4"`, `imageUrl = "t.jpg"`,
`displayUrl = null`. -/
theorem claim_C3_video_priority_witness :
    (prioritizeVideoContent
      { videoUrl := some "v.mp4", imageUrl := some "t.jpg" }).type =
        some "video" ∧
    (prioritizeVideoContent
      { videoUrl := some "v.mp4", imageUrl := some "t.jpg" }).displayUrl =
        some "t.jpg" ∧
    (prioritizeVideoContent
      { videoUrl := some "v.mp4", imageUrl := some "t.jpg" }).imageUrl =
        none := by
  refine ⟨?_, ?_, ?_⟩
  · exact claim_C3_video_priority.1
      { videoUrl := some "v.mp4", imageUrl := some "t.jpg" } "v.mp4"
      rfl (by decide) (by decide)
  · exact (claim_C3_video_priority.2.1
      { videoUrl := some "v.mp4", imageUrl := some "t.jpg" } "v.mp4" "t.jpg"
      rfl (by decide) (by decide) rfl (by decide) rfl).1
  · exact (claim_C3_video_priority.2.1
      { videoUrl := some "v.mp4", imageUrl := some "t.jpg" } "v.mp4" "t.jpg"
      rfl (by decide) (by decide) rfl (by decide) rfl).2

/-- Claim **C5 (counterexample).** The claim says a record with null `postType` and
`videoViewCount = 0` (non-null) is normalized to `postType = "video"`; the
code tests Python truthiness, for which `0` is falsy, so the record is
returned unchanged with a still-null `type`. -/
theorem claim_C5_counterexample :
    (InstagramPost.type { videoViewCount := some 0 } = none) ∧
    (InstagramPost.videoViewCount { videoViewCount := some 0 } = some 0) ∧
    (prioritizeVideoContent { videoViewCount := some 0 }).type = none ∧
    ¬((prioritizeVideoContent { videoViewCount := some 0 }).type =
      some "video") := by
  decide

/-- Claim **C5 (amended claim theorem).** For every record whose `postType` is
null and whose `videoViewCount` or `videoPlayCount` is non-null **and
non-zero** (Python-truthy), the normalizer sets `postType` to `"video"`. -/
theorem claim_C5_amended_viewcount_video (p : InstagramPost) (n : Int)
    (htype : p.type = none)
    (hn : (p.videoViewCount = some n ∧ n ≠ 0) ∨
      (p.videoPlayCount = some n ∧ n ≠ 0)) :
    (prioritizeVideoContent p).type = some "video" := by
  by_cases hv : videoCond p = true
  · rw [prioritize_of_videoCond hv]
    exact pvcVideoUrlStep_type_pos hv
  · have hv' : videoCond p = false := by simpa using hv
    unfold prioritizeVideoContent
    rw [pvcVideoUrlStep_neg hv', pvcViewCountStep_eq]
    have hcount : (truthyInt p.videoViewCount || truthyInt p.videoPlayCount) = true := by
      rcases hn with ⟨hc, hn0⟩ | ⟨hc, hn0⟩ <;>
        rw [hc] <;> simp [truthyInt, hn0]
    rw [hcount, htype]
    rfl

/-- Witness for `claim_C5_amended_viewcount_video` at the record with
`videoPlayCount = 7`. -/
theorem claim_C5_amended_viewcount_video_witness :
    (prioritizeVideoContent { videoPlayCount := some 7 }).type =
      some "video" :=
  claim_C5_amended_viewcount_video { videoPlayCount := some 7 } 7 rfl
    (Or.inr ⟨rfl, by decide⟩)

/-- Claim **C9 (claim theorem).** The normalizer changes at most `type` (postType),
`imageUrl` and `displayUrl`: each of the fifteen remaining fields of the
record is returned exactly as it was. -/
theorem claim_C9_normalize_frame (p : InstagramPost) :
    (prioritizeVideoContent p).caption = p.caption ∧
    (prioritizeVideoContent p).url = p.url ∧
    (prioritizeVideoContent p).videoUrl = p.videoUrl ∧
    (prioritizeVideoContent p).shortCode = p.shortCode ∧
    (prioritizeVideoContent p).timestamp = p.timestamp ∧
    (prioritizeVideoContent p).likesCount = p.likesCount ∧
    (prioritizeVideoContent p).commentsCount = p.commentsCount ∧
    (prioritizeVideoContent p).videoViewCount = p.videoViewCount ∧
    (prioritizeVideoContent p).videoPlayCount = p.videoPlayCount ∧
    (prioritizeVideoContent p).ownerUsername = p.ownerUsername ∧
    (prioritizeVideoContent p).ownerFullName = p.ownerFullName ∧
    (prioritizeVideoContent p).locationName = p.locationName ∧
    (prioritizeVideoContent p).hashtags = p.hashtags ∧
    (prioritizeVideoContent p).mentions = p.mentions ∧
    (prioritizeVideoContent p).alt = p.alt := by
  obtain ⟨t, i, d, e⟩ := prioritize_shape p
  rw [e]
  exact ⟨rfl, rfl, rfl, rfl, rfl, rfl, rfl, rfl, rfl, rfl, rfl, rfl, rfl,
    rfl, rfl⟩

/-! ### Lemmas about the retry controller -/

lemma retryLoop_hit {fetch : Nat → Except String (Option String)}
    {a fuel : Nat} {c : Option String} (hf : fetch a = .ok c)
    (ht : truthyStr c = true) :
    retryLoop fetch a (fuel + 1) = (.ok c, 1) := by
  unfold retryLoop
  rw [hf]
  simp [ht]

lemma retryLoop_soft {fetch : Nat → Except String (Option String)}
    {a fuel : Nat} {c : Option String} (hf : fetch a = .ok c)
    (ht : truthyStr c = false) :
    retryLoop fetch a (fuel + 1) =
      ((retryLoop fetch (a + 1) fuel).1, (retryLoop fetch (a + 1) fuel).2 + 1) := by
  simp only [retryLoop]
  rw [hf]
  simp [ht]

lemma retryLoop_raise_mid {fetch : Nat → Except String (Option String)}
    {a fuel : Nat} {e : String} (hf : fetch a = .error e) (hfu : fuel ≠ 0) :
    retryLoop fetch a (fuel + 1) =
      ((retryLoop fetch (a + 1) fuel).1, (retryLoop fetch (a + 1) fuel).2 + 1) := by
  simp only [retryLoop]
  rw [hf]
  simp [hfu]

lemma retryLoop_raise_last {fetch : Nat → Except String (Option String)}
    {a : Nat} {e : String} (hf : fetch a = .error e) :
    retryLoop fetch a 1 = (.error e, 1) := by
  unfold retryLoop
  rw [hf]
  simp

/-- If attempts `a, …, a+j-1` are soft failures and attempt `a+j` yields
truthy content `c`, the loop stops at attempt `a+j` with result `c` after
exactly `j+1` fetcher invocations. -/
lemma retryLoop_first_truthy (fetch : Nat → Except String (Option String)) :
    ∀ (j fuel a : Nat) (c : Option String), j < fuel →
    (∀ i, i < j → ∃ ci, fetch (a + i) = .ok ci ∧ truthyStr ci = false) →
    fetch (a + j) = .ok c → truthyStr c = true →
    retryLoop fetch a fuel = (.ok c, j + 1) := by
  intro j
  induction j with
  | zero =>
    intro fuel a c hlt _ hj ht
    obtain ⟨fuel', rfl⟩ := Nat.exists_eq_succ_of_ne_zero (Nat.pos_iff_ne_zero.mp hlt)
    rw [Nat.add_zero] at hj
    exact retryLoop_hit hj ht
  | succ j ih =>
    intro fuel a c hlt hsoft hj ht
    obtain ⟨fuel', rfl⟩ := Nat.exists_eq_succ_of_ne_zero
      (Nat.pos_iff_ne_zero.mp (Nat.lt_of_le_of_lt (Nat.zero_le _) hlt))
    obtain ⟨c0, hf0, ht0⟩ := hsoft 0 (Nat.succ_pos _)
    rw [Nat.add_zero] at hf0
    rw [retryLoop_soft hf0 ht0]
    have hrec : retryLoop fetch (a + 1) fuel' = (.ok c, j + 1) := by
      refine ih fuel' (a + 1) c (Nat.lt_of_succ_lt_succ hlt) ?_ ?_ ht
      · intro i hi
        obtain ⟨ci, hfi, hti⟩ := hsoft (i + 1) (Nat.succ_lt_succ hi)
        refine ⟨ci, ?_, hti⟩
        rw [show a + 1 + i = a + (i + 1) by omega]
        exact hfi
      · rw [show a + 1 + j = a + (j + 1) by omega]
        exact hj
    rw [hrec]

/-- If every attempt in the window is a soft failure, the loop exhausts all
`fuel` attempts and falls through to the null result. -/
lemma retryLoop_all_soft (fetch : Nat → Except String (Option String)) :
    ∀ (fuel a : Nat),
    (∀ i, i < fuel → ∃ ci, fetch (a + i) = .ok ci ∧ truthyStr ci = false) →
    retryLoop fetch a fuel = (.ok none, fuel) := by
  intro fuel
  induction fuel with
  | zero => intro a _; rfl
  | succ fuel ih =>
    intro a hsoft
    obtain ⟨c0, hf0, ht0⟩ := hsoft 0 (Nat.succ_pos _)
    rw [Nat.add_zero] at hf0
    rw [retryLoop_soft hf0 ht0]
    have hrec : retryLoop fetch (a + 1) fuel = (.ok none, fuel) := by
      refine ih (a + 1) ?_
      intro i hi
      obtain ⟨ci, hfi, hti⟩ := hsoft (i + 1) (Nat.succ_lt_succ hi)
      refine ⟨ci, ?_, hti⟩
      rw [show a + 1 + i = a + (i + 1) by omega]
      exact hfi
    rw [hrec]

/-- If every attempt in the window raises, the loop swallows all but the
final raise and re-raises the final attempt's error, after exactly `fuel`
fetcher invocations. -/
lemma retryLoop_all_raise (fetch : Nat → Except String (Option String)) :
    ∀ (fuel a : Nat) (e : String), 0 < fuel →
    (∀ i, i < fuel → ∃ ei, fetch (a + i) = .error ei) →
    fetch (a + (fuel - 1)) = .error e →
    retryLoop fetch a fuel = (.error e, fuel) := by
  intro fuel
  induction fuel with
  | zero => intro a e h; cases h
  | succ fuel ih =>
    intro a e _ hraise hlast
    cases fuel with
    | zero =>
      rw [Nat.add_zero] at hlast
      exact retryLoop_raise_last hlast
    | succ fuel' =>
      obtain ⟨e0, hf0⟩ := hraise 0 (Nat.succ_pos _)
      rw [Nat.add_zero] at hf0
      rw [retryLoop_raise_mid hf0 (Nat.succ_ne_zero _)]
      have hrec : retryLoop fetch (a + 1) (fuel' + 1) = (.error e, fuel' + 1) := by
        refine ih (a + 1) e (Nat.succ_pos _) ?_ ?_
        · intro i hi
          obtain ⟨ei, hfi⟩ := hraise (i + 1) (Nat.succ_lt_succ hi)
          refine ⟨ei, ?_⟩
          rw [show a + 1 + i = a + (i + 1) by omega]
          exact hfi
        · rw [show a + 1 + (fuel' + 1 - 1) = a + (fuel' + 1 + 1 - 1) by omega]
          exact hlast
      rw [hrec]

/-- A successful fetch through `_scrape_with_crawl4ai` never yields the
empty string: the markdown passed the length gate, and appending the media
block cannot shrink it. -/
lemma scrapeWithCrawl4ai_some_truthy {r : CrawlResult} {c : String}
    (h : scrapeWithCrawl4ai r = .ok (some c)) : truthyStr (some c) = true := by
  obtain ⟨su, mk, media, emsg⟩ := r
  cases su
  · exact absurd h (by simp [scrapeWithCrawl4ai])
  · cases mk with
    | none => exact absurd h (by simp [scrapeWithCrawl4ai])
    | some md =>
      replace h : (if (md == "" || decide ((pyStrip md).length < 100)) = true
          then (Except.ok none : Except String (Option String))
          else if media.isEmpty = true then Except.ok (some md)
          else Except.ok (some (md ++ mediaInfoBlock media))) =
          Except.ok (some c) := h
      rcases hgate : (md == "" || decide ((pyStrip md).length < 100)) with _ | _
      · rw [hgate] at h
        have hmd : (md == "") = false := by
          rcases hb : (md == "") with _ | _
          · rfl
          · rw [hb] at hgate
            simp at hgate
        have hmdne : md ≠ "" := by
          intro he
          rw [he] at hmd
          simp at hmd
        simp only [Bool.false_eq_true, if_false] at h
        split at h
        · cases h
          simp [truthyStr, hmd]
        · cases h
          have hne : md ++ mediaInfoBlock media ≠ "" := by
            intro he
            have hd := congrArg String.data he
            rw [String.data_append] at hd
            exact hmdne (String.ext (List.append_eq_nil.mp hd).1)
          simp [truthyStr, hne]
      · rw [hgate] at h
        simp at h

/-- Claim **C1 (claim theorem).** First conjunct: when attempts `0..j-1` are soft
failures (empty/too-short content, no raise) and attempt `j` yields content
that passed the 100-character gate, the retry controller returns that
attempt's content and the fetcher is invoked exactly `j+1` times. Second
conjunct: when all `maxAttempts` attempts are soft failures, the controller
returns the null result (not an error) after exactly `maxAttempts`
invocations. Third conjunct: the spec's stub — empty content twice then
valid content, `maxAttempts = 3` — returns the valid content after exactly
3 invocations. -/
theorem claim_C1_retry_returns_first_valid :
    (∀ (seq : Nat → CrawlResult) (maxR j : Nat) (c : String),
      j < maxR →
      (∀ i, i < j → scrapeWithCrawl4ai (seq i) = .ok none) →
      scrapeWithCrawl4ai (seq j) = .ok (some c) →
      scrapeWithRetry (fun i => scrapeWithCrawl4ai (seq i)) maxR =
        (.ok (some c), j + 1)) ∧
    (∀ (seq : Nat → CrawlResult) (maxR : Nat),
      (∀ i, i < maxR → scrapeWithCrawl4ai (seq i) = .ok none) →
      scrapeWithRetry (fun i => scrapeWithCrawl4ai (seq i)) maxR =
        (.ok none, maxR)) ∧
    scrapeWithRetry (fun i => scrapeWithCrawl4ai (stubSeq i)) 3 =
      (.ok (some validMarkdown), 3) := by
  refine ⟨?_, ?_, by decide⟩
  · intro seq maxR j c hlt hsoft hj
    unfold scrapeWithRetry
    refine retryLoop_first_truthy _ j maxR 0 (some c) hlt ?_ ?_
      (scrapeWithCrawl4ai_some_truthy hj)
    · intro i hi
      refine ⟨none, ?_, rfl⟩
      rw [Nat.zero_add]
      exact hsoft i hi
    · rw [Nat.zero_add]
      exact hj
  · intro seq maxR hsoft
    unfold scrapeWithRetry
    refine retryLoop_all_soft _ maxR 0 ?_
    intro i hi
    refine ⟨none, ?_, rfl⟩
    rw [Nat.zero_add]
    exact hsoft i hi

/-- Witness for `claim_C1_retry_returns_first_valid`: its first universal
part applied to the concrete stub (soft, soft, valid) with
`maxAttempts = 3`. -/
theorem claim_C1_retry_returns_first_valid_witness :
    scrapeWithRetry (fun i => scrapeWithCrawl4ai (stubSeq i)) 3 =
      (.ok (some validMarkdown), 3) :=
  claim_C1_retry_returns_first_valid.1 stubSeq 3 2 validMarkdown
    (by decide) (by decide) (by decide)

/-- Claim **C2 (claim theorem).** First conjunct: when every attempt raises a
classified error, the controller swallows the raise on every non-final
attempt but re-raises the final attempt's error, after exactly `maxAttempts`
fetcher invocations. Second conjunct: a raised error and the swallowed null
result are distinguishable caller-visible outcomes. Third conjunct: the
spec's stub — an always-raising fetcher with `maxAttempts = 3` — propagates
the classified error with exactly 3 invocations. -/
theorem claim_C2_retry_reraises_on_final_attempt :
    (∀ (seq : Nat → CrawlResult) (maxR : Nat) (e : String), 0 < maxR →
      (∀ i, i < maxR → ∃ ei, scrapeWithCrawl4ai (seq i) = .error ei) →
      scrapeWithCrawl4ai (seq (maxR - 1)) = .error e →
      scrapeWithRetry (fun i => scrapeWithCrawl4ai (seq i)) maxR =
        (.error e, maxR)) ∧
    (∀ e : String,
      (Except.error e : Except String (Option String)) ≠ .ok none) ∧
    scrapeWithRetry (fun i => scrapeWithCrawl4ai ((fun _ => raisingCrawl) i)) 3 =
      (.error "Instagram is rate limiting requests", 3) := by
  refine ⟨?_, ?_, by decide⟩
  · intro seq maxR e hpos hraise hlast
    unfold scrapeWithRetry
    refine retryLoop_all_raise _ maxR 0 e hpos ?_ ?_
    · intro i hi
      obtain ⟨ei, hei⟩ := hraise i hi
      refine ⟨ei, ?_⟩
      rw [Nat.zero_add]
      exact hei
    · rw [Nat.zero_add]
      exact hlast
  · intro e h
    cases h

/-- Witness for `claim_C2_retry_reraises_on_final_attempt`: its first
universal part applied to the always-raising stub with `maxAttempts = 3`. -/
theorem claim_C2_retry_reraises_on_final_attempt_witness :
    scrapeWithRetry (fun i => scrapeWithCrawl4ai ((fun _ => raisingCrawl) i)) 3 =
      (.error "Instagram is rate limiting requests", 3) :=
  claim_C2_retry_reraises_on_final_attempt.1 (fun _ => raisingCrawl) 3
    "Instagram is rate limiting requests" (by decide)
    (fun i _ => ⟨"Instagram is rate limiting requests", rfl⟩) (by decide)

/-! ### Lower-casing is transparent to digit keywords

The code checks the numeric keywords `"404"`, `"403"`, `"429"` against the
raw message but the word keywords against the lower-cased message. Since
`Char.toLower` never produces a character below code point 65, both views
agree on keywords made of such characters, which is what lets the code's
classifier coincide with the spec's uniformly-lower-cased one. -/

lemma toLower_eq_iff_low {d : Char} (hd : d.toNat < 65) (c : Char) :
    Char.toLower c = d ↔ c = d := by
  constructor
  · intro h
    by_cases hc : Char.toNat c ≥ 65 ∧ Char.toNat c ≤ 90
    · exfalso
      have key : (Char.toLower c).toNat = c.toNat + 32 := by
        simp only [Char.toLower]
        rw [if_pos hc]
        obtain ⟨h1, h2⟩ := hc
        obtain ⟨k, hk⟩ : ∃ k, Char.toNat c = k := ⟨_, rfl⟩
        rw [hk] at h1 h2 ⊢
        interval_cases k <;> decide
      have hd2 : (Char.toLower c).toNat = d.toNat := by rw [h]
      have hc1 := hc.1
      omega
    · simp only [Char.toLower] at h
      rw [if_neg hc] at h
      exact h
  · intro h
    subst h
    simp only [Char.toLower]
    rw [if_neg (by omega)]

lemma map_toLower_fixed {s : List Char} (hs : ∀ d ∈ s, d.toNat < 65) :
    s.map Char.toLower = s := by
  induction s with
  | nil => rfl
  | cons a t ih =>
    have ha : Char.toLower a = a :=
      (toLower_eq_iff_low (hs a (List.mem_cons_self a t)) a).mpr rfl
    simp only [List.map_cons, ha]
    rw [ih (fun d hd => hs d (List.mem_cons_of_mem _ hd))]

lemma eq_of_map_toLower {s : List Char} (hs : ∀ d ∈ s, d.toNat < 65) :
    ∀ m : List Char, m.map Char.toLower = s → m = s := by
  induction s with
  | nil => exact fun m h => List.map_eq_nil_iff.mp h
  | cons a t ih =>
    intro m h
    cases m with
    | nil => exact absurd h (by simp)
    | cons b m' =>
      simp only [List.map_cons, List.cons.injEq] at h
      obtain ⟨h1, h2⟩ := h
      have hb : b = a :=
        (toLower_eq_iff_low (hs a (List.mem_cons_self a t)) b).mp h1
      have hm := ih (fun d hd => hs d (List.mem_cons_of_mem _ hd)) m' h2
      rw [hb, hm]

lemma infix_map_toLower {s : List Char} (hs : ∀ d ∈ s, d.toNat < 65)
    (l : List Char) : s <:+: l.map Char.toLower ↔ s <:+: l := by
  constructor
  · rintro ⟨t1, t2, ht⟩
    rw [List.append_assoc] at ht
    obtain ⟨a, bc, hl, ha, hbc⟩ := List.map_eq_append_iff.mp ht.symm
    obtain ⟨b, c2, hbc2, hb, hc⟩ := List.map_eq_append_iff.mp hbc
    have hbs : b = s := eq_of_map_toLower hs b hb
    refine ⟨a, c2, ?_⟩
    rw [hl, hbc2, hbs, List.append_assoc]
  · rintro ⟨t1, t2, ht⟩
    refine ⟨t1.map Char.toLower, t2.map Char.toLower, ?_⟩
    rw [← ht]
    simp only [List.map_append]
    rw [map_toLower_fixed hs]

lemma pyIn_lower_digits {needle : String} (hs : ∀ d ∈ needle.data, d.toNat < 65)
    (hay : String) : pyIn needle (pyLower hay) = pyIn needle hay := by
  unfold pyIn pyLower
  exact decide_eq_decide.mpr (infix_map_toLower hs hay.data)

/-- Claim **C7 (claim theorem).** The fetch-failure classifier behaves as
substring matching on the lower-cased message, checked in order: the first
conjunct proves the code's classifier (which tests the numeric keywords
against the raw message) equal to the spec's uniformly lower-cased one; the
next four conjuncts spell out the order-sensitive bucket conditions, so a
message matching an earlier bucket is never classified into a later one;
the last conjunct is the spec's scenario: a fetcher failure message
`"403 forbidden"` yields the access-denied outcome. -/
theorem claim_C7_fetch_error_classification :
    (∀ msg : String, classifyFetchError msg = specClassifyFetch msg) ∧
    (∀ msg : String,
      (pyIn "404" (pyLower msg) || pyIn "not found" (pyLower msg)) = true →
      classifyFetchError msg = .notFound) ∧
    (∀ msg : String,
      (pyIn "404" (pyLower msg) || pyIn "not found" (pyLower msg)) = false →
      (pyIn "403" (pyLower msg) || pyIn "forbidden" (pyLower msg)) = true →
      classifyFetchError msg = .accessDenied) ∧
    (∀ msg : String,
      (pyIn "404" (pyLower msg) || pyIn "not found" (pyLower msg)) = false →
      (pyIn "403" (pyLower msg) || pyIn "forbidden" (pyLower msg)) = false →
      (pyIn "rate limit" (pyLower msg) || pyIn "429" (pyLower msg)) = true →
      classifyFetchError msg = .rateLimited) ∧
    (∀ msg : String,
      (pyIn "404" (pyLower msg) || pyIn "not found" (pyLower msg)) = false →
      (pyIn "403" (pyLower msg) || pyIn "forbidden" (pyLower msg)) = false →
      (pyIn "rate limit" (pyLower msg) || pyIn "429" (pyLower msg)) = false →
      classifyFetchError msg = .generic) ∧
    (classifyFetchError "403 forbidden" = .accessDenied ∧
      scrapeWithCrawl4ai
        { success := false, markdown := none, media := [],
          errorMessage := some "403 forbidden" } =
        .error "Instagram post is private or access denied") := by
  have t404 : ∀ m : String, pyIn "404" (pyLower m) = pyIn "404" m :=
    fun m => pyIn_lower_digits (by decide) m
  have t403 : ∀ m : String, pyIn "403" (pyLower m) = pyIn "403" m :=
    fun m => pyIn_lower_digits (by decide) m
  have t429 : ∀ m : String, pyIn "429" (pyLower m) = pyIn "429" m :=
    fun m => pyIn_lower_digits (by decide) m
  have hEq : ∀ msg : String, classifyFetchError msg = specClassifyFetch msg := by
    intro msg
    unfold classifyFetchError specClassifyFetch
    rw [t404 msg, t403 msg, t429 msg]
  refine ⟨hEq, ?_, ?_, ?_, ?_, by decide⟩
  · intro msg h
    rw [hEq msg]
    unfold specClassifyFetch
    rw [h]
    rfl
  · intro msg h1 h2
    rw [hEq msg]
    unfold specClassifyFetch
    rw [h1, h2]
    rfl
  · intro msg h1 h2 h3
    rw [hEq msg]
    unfold specClassifyFetch
    rw [h1, h2, h3]
    rfl
  · intro msg h1 h2 h3
    rw [hEq msg]
    unfold specClassifyFetch
    rw [h1, h2, h3]
    rfl

/-- Witness for `claim_C7_fetch_error_classification`: its bucket conjuncts
instantiated at concrete messages for each of the four outcomes. -/
theorem claim_C7_fetch_error_classification_witness :
    classifyFetchError "Page Not Found" = .notFound ∧
    classifyFetchError "403 forbidden" = .accessDenied ∧
    classifyFetchError "Rate Limit hit" = .rateLimited ∧
    classifyFetchError "mystery failure" = .generic :=
  ⟨claim_C7_fetch_error_classification.2.1 "Page Not Found" (by decide),
    claim_C7_fetch_error_classification.2.2.1 "403 forbidden" (by decide)
      (by decide),
    claim_C7_fetch_error_classification.2.2.2.1 "Rate Limit hit" (by decide)
      (by decide) (by decide),
    claim_C7_fetch_error_classification.2.2.2.2.1 "mystery failure"
      (by decide) (by decide) (by decide)⟩

/-- Claim **C8 (claim theorem).** The extraction-stage classifier (a function of
its own, independent of the fetch-stage one) matches ordered lower-cased
keywords: `"api key"` gives the auth bucket, else `"quota"`/`"billing"` the
quota bucket, else `"rate limit"` the rate-limit bucket, else the generic
bucket (first four conjuncts); every message lands in one of the four
buckets, never escaping unclassified (fifth conjunct); the pipeline never
invokes the extractor more than once, so extraction failures are never
retried (sixth conjunct); and the extractor error
`"quota exceeded for billing"` yields the quota-exceeded outcome (last
conjunct). -/
theorem claim_C8_extraction_error_classification :
    (∀ msg : String, pyIn "api key" (pyLower msg) = true →
      classifyParseError msg = .authError) ∧
    (∀ msg : String, pyIn "api key" (pyLower msg) = false →
      (pyIn "quota" (pyLower msg) || pyIn "billing" (pyLower msg)) = true →
      classifyParseError msg = .quotaExceeded) ∧
    (∀ msg : String, pyIn "api key" (pyLower msg) = false →
      (pyIn "quota" (pyLower msg) || pyIn "billing" (pyLower msg)) = false →
      pyIn "rate limit" (pyLower msg) = true →
      classifyParseError msg = .rateLimited) ∧
    (∀ msg : String, pyIn "api key" (pyLower msg) = false →
      (pyIn "quota" (pyLower msg) || pyIn "billing" (pyLower msg)) = false →
      pyIn "rate limit" (pyLower msg) = false →
      classifyParseError msg = .generic) ∧
    (∀ msg : String,
      classifyParseError msg = .authError ∨
      classifyParseError msg = .quotaExceeded ∨
      classifyParseError msg = .rateLimited ∨
      classifyParseError msg = .generic) ∧
    (∀ (fetch : Nat → Except String (Option String)) (outcome : OpenAIOutcome)
      (url : String) (maxR : Nat),
      (scrapeInstagramPost fetch outcome url maxR).2.2 ≤ 1) ∧
    (classifyParseError "quota exceeded for billing" = .quotaExceeded ∧
      parseWithOpenai (.raised "quota exceeded for billing") "u" =
        .error "OpenAI API quota exceeded or billing issue") := by
  refine ⟨?_, ?_, ?_, ?_, ?_, ?_, by decide⟩
  · intro msg h
    unfold classifyParseError
    rw [h]
    rfl
  · intro msg h1 h2
    unfold classifyParseError
    rw [h1, h2]
    rfl
  · intro msg h1 h2 h3
    unfold classifyParseError
    rw [h1, h2, h3]
    rfl
  · intro msg h1 h2 h3
    unfold classifyParseError
    rw [h1, h2, h3]
    rfl
  · intro msg
    rcases h : classifyParseError msg with _ | _ | _ | _
    · exact Or.inl rfl
    · exact Or.inr (Or.inl rfl)
    · exact Or.inr (Or.inr (Or.inl rfl))
    · exact Or.inr (Or.inr (Or.inr rfl))
  · intro fetch outcome url maxR
    unfold scrapeInstagramPost
    split
    · simp
    · simp
    · split
      · simp
      · split <;> simp

/-- Witness for `claim_C8_extraction_error_classification`: its bucket
conjuncts instantiated at concrete extractor error messages. -/
theorem claim_C8_extraction_error_classification_witness :
    classifyParseError "Invalid API Key" = .authError ∧
    classifyParseError "quota exceeded for billing" = .quotaExceeded ∧
    classifyParseError "Rate Limit reached" = .rateLimited ∧
    classifyParseError "boom" = .generic :=
  ⟨claim_C8_extraction_error_classification.1 "Invalid API Key" (by decide),
    claim_C8_extraction_error_classification.2.1 "quota exceeded for billing"
      (by decide) (by decide),
    claim_C8_extraction_error_classification.2.2.1 "Rate Limit reached"
      (by decide) (by decide) (by decide),
    claim_C8_extraction_error_classification.2.2.2.1 "boom"
      (by decide) (by decide) (by decide)⟩

/-! ### Lemmas about the short-code regex search -/

lemma shortCodeHere_shape {l : List Char} (h : shortCodeHere l = true) :
    ∃ d rest, l = '/' :: 'p' :: '/' :: d :: rest ∧ isIdChar d = true := by
  rcases l with _ | ⟨a, _ | ⟨b, _ | ⟨c, _ | ⟨d, rest⟩⟩⟩⟩
  · simp [shortCodeHere] at h
  · simp [shortCodeHere] at h
  · simp [shortCodeHere] at h
  · simp [shortCodeHere] at h
  · simp only [shortCodeHere, Bool.and_eq_true, beq_iff_eq] at h
    obtain ⟨⟨⟨ha, hb⟩, hc⟩, hd⟩ := h
    subst ha; subst hb; subst hc
    exact ⟨d, rest, rfl, hd⟩

lemma reSearch_some_has_p_seg {l cs : List Char}
    (h : reSearchShortCode l = some cs) : "/p/".data <:+: l := by
  induction l with
  | nil => cases h
  | cons c rest ih =>
    rw [reSearchShortCode] at h
    split at h
    · next hcond =>
      obtain ⟨d, r, he, _⟩ := shortCodeHere_shape hcond
      exact ⟨[], d :: r, by rw [he]; rfl⟩
    · obtain ⟨s, t, hst⟩ := ih h
      exact ⟨c :: s, t, by rw [← hst]; rfl⟩

lemma reSearch_none_iff (l : List Char) :
    reSearchShortCode l = none ↔
      ∀ t, t <:+ l → shortCodeHere t = false := by
  induction l with
  | nil =>
    constructor
    · intro _ t ht
      rw [List.suffix_nil.mp ht]
      rfl
    · intro _
      rfl
  | cons c rest ih =>
    rw [reSearchShortCode]
    split
    · next hcond =>
      constructor
      · intro h
        cases h
      · intro hall
        have := hall (c :: rest) (List.suffix_refl _)
        rw [hcond] at this
        cases this
    · next hcond =>
      rw [ih]
      constructor
      · intro hall t ht
        rcases List.suffix_cons_iff.mp ht with rfl | ht'
        · simpa using hcond
        · exact hall t ht'
      · intro hall t ht
        exact hall t (List.suffix_cons_iff.mpr (Or.inr ht))

lemma backfillUrl_shortCode (args : InstagramPost) (url : String) :
    (backfillUrl args url).shortCode = args.shortCode := by
  unfold backfillUrl
  split <;> rfl

lemma backfillShortCode_url (args : InstagramPost) (url : String) :
    (backfillShortCode args url).url = args.url := by
  unfold backfillShortCode
  split
  · rfl
  · split
    · split <;> rfl
    · rfl

lemma backfillUrl_of_falsy {args : InstagramPost} (url : String)
    (h : truthyStr args.url = false) :
    backfillUrl args url = { args with url := some url } := by
  unfold backfillUrl
  rw [h]
  simp

lemma backfillShortCode_of_found {args : InstagramPost} {url : String}
    {cs : List Char} (h : truthyStr args.shortCode = false)
    (hs : reSearchShortCode url.data = some cs) :
    backfillShortCode args url =
      { args with shortCode := some (String.mk cs) } := by
  unfold backfillShortCode
  rw [h]
  have hpy : pyIn "/p/" url = true := decide_eq_true (reSearch_some_has_p_seg hs)
  rw [hpy, hs]
  simp

lemma backfillShortCode_of_none {args : InstagramPost} {url : String}
    (hs : reSearchShortCode url.data = none) :
    backfillShortCode args url = args := by
  unfold backfillShortCode
  split
  · rfl
  · split
    · rw [hs]
    · rfl

/-- Claim **C6 (claim theorem).** On a successful structured extraction the
pipeline backfills deterministically before normalization: the first
conjunct fixes the success path of `_parse_with_openai` as backfill followed
by the normalizer; the second says a missing/empty extracted `url` is
replaced by the input URL; the third says a missing/empty extracted
`shortCode` is filled with the identifier the regex `/p/([A-Za-z0-9_-]+)`
finds in the URL; the last is the spec's instance: for `.../p/ABC123/` with
`shortCode` omitted, the returned record has `shortCode = "ABC123"`. -/
theorem claim_C6_backfill_url_and_shortcode :
    (∀ (args : InstagramPost) (url : String),
      parseWithOpenai (.functionCall args) url =
        .ok (prioritizeVideoContent (backfill args url))) ∧
    (∀ (args : InstagramPost) (url : String), truthyStr args.url = false →
      (prioritizeVideoContent (backfill args url)).url = some url) ∧
    (∀ (args : InstagramPost) (url : String) (cs : List Char),
      truthyStr args.shortCode = false →
      reSearchShortCode url.data = some cs →
      (prioritizeVideoContent (backfill args url)).shortCode =
        some (String.mk cs)) ∧
    (prioritizeVideoContent
        (backfill { } "https://www.instagram.com/p/ABC123/")).shortCode =
      some "ABC123" := by
  refine ⟨fun args url => rfl, ?_, ?_, by decide⟩
  · intro args url h
    obtain ⟨t, i, d, e⟩ := prioritize_shape (backfill args url)
    rw [e]
    show (backfill args url).url = some url
    unfold backfill
    rw [backfillShortCode_url, backfillUrl_of_falsy url h]
  · intro args url cs h hs
    obtain ⟨t, i, d, e⟩ := prioritize_shape (backfill args url)
    rw [e]
    show (backfill args url).shortCode = some (String.mk cs)
    unfold backfill
    have h1 : truthyStr (backfillUrl args url).shortCode = false := by
      rw [backfillUrl_shortCode]
      exact h
    rw [backfillShortCode_of_found h1 hs]

/-- Witness for `claim_C6_backfill_url_and_shortcode`: its universal parts
applied to the empty extractor record and the URL
`https://www.instagram.com/p/ABC123/`. -/
theorem claim_C6_backfill_url_and_shortcode_witness :
    (prioritizeVideoContent
        (backfill { } "https://www.instagram.com/p/ABC123/")).url =
      some "https://www.instagram.com/p/ABC123/" ∧
    (prioritizeVideoContent
        (backfill { } "https://www.instagram.com/p/ABC123/")).shortCode =
      some (String.mk "ABC123".data) :=
  ⟨claim_C6_backfill_url_and_shortcode.2.1 { }
      "https://www.instagram.com/p/ABC123/" rfl,
    claim_C6_backfill_url_and_shortcode.2.2.1 { }
      "https://www.instagram.com/p/ABC123/" "ABC123".data rfl (by decide)⟩

/-! ### Reel and IGTV URLs never feed the short-code backfill -/

lemma suffix_append_cases {α : Type} {t A B : List α} (h : t <:+ A ++ B) :
    t <:+ B ∨ ∃ t1, t1 <:+ A ∧ t = t1 ++ B := by
  induction A with
  | nil => exact Or.inl (by simpa using h)
  | cons a A' ih =>
    rcases List.suffix_cons_iff.mp (by simpa using h) with he | h'
    · exact Or.inr ⟨a :: A', List.suffix_refl _, by rw [he]; rfl⟩
    · rcases ih h' with hB | ⟨t1, ht1, he⟩
      · exact Or.inl hB
      · exact Or.inr ⟨t1, List.suffix_cons_iff.mpr (Or.inr ht1), he⟩

/-- When no tail of the prefix `A` starts with `/p/` and the identifier is
made of `[A-Za-z0-9_-]` characters only, the URL `A ++ id ++ "/"` gives the
regex `/p/([A-Za-z0-9_-]+)` nothing to match. -/
lemma reSearch_none_of_clean (A id : List Char)
    (hA : ∀ t ∈ A.tails, ¬ t.take 3 = ['/', 'p', '/'])
    (hid : ∀ ch ∈ id, isIdChar ch = true) :
    reSearchShortCode (A ++ (id ++ ['/'])) = none := by
  rw [reSearch_none_iff]
  intro t ht
  rcases hsc : shortCodeHere t with _ | _
  · rfl
  · exfalso
    obtain ⟨d, rest, rfl, hd⟩ := shortCodeHere_shape hsc
    rcases suffix_append_cases ht with hB | ⟨t1, ht1, he⟩
    · rcases suffix_append_cases hB with h1 | ⟨t2, ht2, he2⟩
      · have hlen := h1.length_le
        simp only [List.length_cons, List.length_nil] at hlen
        omega
      · cases t2 with
        | nil => simp at he2
        | cons e t2' =>
          injection he2 with h1' h2'
          have hin := hid e (ht2.mem (List.mem_cons_self e t2'))
          rw [← h1'] at hin
          exact absurd hin (by decide)
    · rcases t1 with _ | ⟨a, _ | ⟨b, _ | ⟨c3, t1'⟩⟩⟩
      · simp only [List.nil_append] at he
        cases id with
        | nil =>
          simp only [List.nil_append] at he
          injection he with h1' h2'
          exact List.noConfusion h2'
        | cons e id' =>
          simp only [List.cons_append] at he
          injection he with h1' h2'
          have hin := hid e (List.mem_cons_self e id')
          rw [← h1'] at hin
          exact absurd hin (by decide)
      · simp only [List.cons_append, List.nil_append] at he
        injection he with h1' h2'
        cases id with
        | nil =>
          simp only [List.nil_append] at h2'
          injection h2' with h3' h4'
          exact absurd h3' (by decide)
        | cons e id' =>
          simp only [List.cons_append] at h2'
          injection h2' with h3' h4'
          cases id' with
          | nil =>
            simp only [List.nil_append] at h4'
            injection h4' with h5' h6'
            exact List.noConfusion h6'
          | cons f id'' =>
            simp only [List.cons_append] at h4'
            injection h4' with h5' h6'
            have hin := hid f (List.mem_cons_of_mem e (List.mem_cons_self f id''))
            rw [← h5'] at hin
            exact absurd hin (by decide)
      · simp only [List.cons_append, List.nil_append] at he
        injection he with h1' h2'
        injection h2' with h3' h4'
        cases id with
        | nil =>
          simp only [List.nil_append] at h4'
          injection h4' with h5' h6'
          exact List.noConfusion h6'
        | cons e id' =>
          simp only [List.cons_append] at h4'
          injection h4' with h5' h6'
          have hin := hid e (List.mem_cons_self e id')
          rw [← h5'] at hin
          exact absurd hin (by decide)
      · simp only [List.cons_append] at he
        injection he with h1' he2'
        injection he2' with h2' he3'
        injection he3' with h3' he4'
        have htl : (a :: b :: c3 :: t1') ∈ A.tails :=
          (List.mem_tails _ _).mpr ht1
        refine hA _ htl ?_
        rw [← h1', ← h2', ← h3']
        rfl

lemma dropLit_append (pat r : List Char) : dropLit pat (pat ++ r) = some r := by
  unfold dropLit
  simp [List.take_left, List.drop_left]

lemma matchPattern_shape (seg id : List Char) (hne : id ≠ [])
    (hid : ∀ ch ∈ id, isIdChar ch = true) :
    matchInstagramPattern seg
      ("https://".data ++ ("www.".data ++
        (("instagram.com/".data ++ seg ++ ['/']) ++ (id ++ ['/'])))) = true := by
  obtain ⟨e, id', rfl⟩ : ∃ e id', id = e :: id' := by
    cases id with
    | nil => exact absurd rfl hne
    | cons e id' => exact ⟨e, id', rfl⟩
  unfold matchInstagramPattern
  rw [dropLit_append]
  simp only [Option.orElse]
  rw [dropLit_append]
  simp only [Option.getD]
  rw [dropLit_append]
  simp only []
  rw [List.takeWhile_append_of_pos hid]
  rw [show List.takeWhile isIdChar ['/'] = [] from rfl, List.append_nil,
    List.drop_left]
  simp

/-- Claim **C10 (claim theorem).** For every reel URL
`https://www.instagram.com/reel/<id>/` and IGTV URL
`https://www.instagram.com/tv/<id>/` — both accepted by
`_is_valid_instagram_url` — an extractor record that omits `shortCode` comes
out of the backfill-plus-normalization path with `shortCode` still null: the
backfill matches only a literal `/p/` segment, which such URLs do not
provide. -/
theorem claim_C10_reel_tv_no_shortcode (id : List Char) (hne : id ≠ [])
    (hid : ∀ ch ∈ id, isIdChar ch = true) (args : InstagramPost)
    (hsc : args.shortCode = none) :
    (isValidInstagramUrl
        (String.mk ("https://www.instagram.com/reel/".data ++ (id ++ ['/']))) =
        true ∧
      (prioritizeVideoContent (backfill args
        (String.mk
          ("https://www.instagram.com/reel/".data ++ (id ++ ['/']))))).shortCode =
        none) ∧
    (isValidInstagramUrl
        (String.mk ("https://www.instagram.com/tv/".data ++ (id ++ ['/']))) =
        true ∧
      (prioritizeVideoContent (backfill args
        (String.mk
          ("https://www.instagram.com/tv/".data ++ (id ++ ['/']))))).shortCode =
        none) := by
  constructor
  · constructor
    · have hm : matchInstagramPattern "reel".data
          (String.mk ("https://www.instagram.com/reel/".data ++ (id ++ ['/']))).data =
          true := by
        show matchInstagramPattern "reel".data
          ("https://www.instagram.com/reel/".data ++ (id ++ ['/'])) = true
        rw [show "https://www.instagram.com/reel/".data =
          "https://".data ++ ("www.".data ++
            ("instagram.com/".data ++ "reel".data ++ ['/'])) from by decide]
        rw [List.append_assoc, List.append_assoc]
        exact matchPattern_shape "reel".data id hne hid
      unfold isValidInstagramUrl
      rw [hm]
      simp
    · have hnone : reSearchShortCode
          (String.mk ("https://www.instagram.com/reel/".data ++ (id ++ ['/']))).data =
          none :=
        reSearch_none_of_clean "https://www.instagram.com/reel/".data id
          (by decide) hid
      obtain ⟨t, i, d, e⟩ := prioritize_shape (backfill args
        (String.mk ("https://www.instagram.com/reel/".data ++ (id ++ ['/']))))
      rw [e]
      show (backfill args
        (String.mk ("https://www.instagram.com/reel/".data ++ (id ++ ['/'])))).shortCode =
        none
      unfold backfill
      rw [backfillShortCode_of_none hnone, backfillUrl_shortCode]
      exact hsc
  · constructor
    · have hm : matchInstagramPattern "tv".data
          (String.mk ("https://www.instagram.com/tv/".data ++ (id ++ ['/']))).data =
          true := by
        show matchInstagramPattern "tv".data
          ("https://www.instagram.com/tv/".data ++ (id ++ ['/'])) = true
        rw [show "https://www.instagram.com/tv/".data =
          "https://".data ++ ("www.".data ++
            ("instagram.com/".data ++ "tv".data ++ ['/'])) from by decide]
        rw [List.append_assoc, List.append_assoc]
        exact matchPattern_shape "tv".data id hne hid
      unfold isValidInstagramUrl
      rw [hm]
      simp
    · have hnone : reSearchShortCode
          (String.mk ("https://www.instagram.com/tv/".data ++ (id ++ ['/']))).data =
          none :=
        reSearch_none_of_clean "https://www.instagram.com/tv/".data id
          (by decide) hid
      obtain ⟨t, i, d, e⟩ := prioritize_shape (backfill args
        (String.mk ("https://www.instagram.com/tv/".data ++ (id ++ ['/']))))
      rw [e]
      show (backfill args
        (String.mk ("https://www.instagram.com/tv/".data ++ (id ++ ['/'])))).shortCode =
        none
      unfold backfill
      rw [backfillShortCode_of_none hnone, backfillUrl_shortCode]
      exact hsc

/-- Witness for `claim_C10_reel_tv_no_shortcode`: the theorem applied to the
identifier `xY_9` and the empty extractor record. -/
theorem claim_C10_reel_tv_no_shortcode_witness :
    (isValidInstagramUrl
        (String.mk ("https://www.instagram.com/reel/".data ++ ("xY_9".data ++ ['/']))) =
        true ∧
      (prioritizeVideoContent (backfill { }
        (String.mk
          ("https://www.instagram.com/reel/".data ++ ("xY_9".data ++ ['/']))))).shortCode =
        none) ∧
    (isValidInstagramUrl
        (String.mk ("https://www.instagram.com/tv/".data ++ ("xY_9".data ++ ['/']))) =
        true ∧
      (prioritizeVideoContent (backfill { }
        (String.mk
          ("https://www.instagram.com/tv/".data ++ ("xY_9".data ++ ['/']))))).shortCode =
        none) :=
  claim_C10_reel_tv_no_shortcode "xY_9".data (by decide) (by decide) { } rfl

end InstaScraper
